import Mathlib

/-!
Shallow embedding of the authentication / session-lifecycle subsystem of the
health-connect backend, together with theorems settling the spec claims.

Sources embedded (paths relative to the repository root):
- `src/models/Session.js` (concatenated after `src/models/Patient.js` in this
  snapshot): the session schema and its statics (`createSession`,
  `findByToken`, `enforceSingleDevice`, `cleanupExpired`, `deleteOldSessions`).
- `src/models/OTP.js`: the OTP schema, its instance methods (`isExpired`,
  `canAttempt`, `incrementAttempts`, `markAsVerified`) and statics
  (`createOTP`, `verifyOTP`).
- `src/models/Admin.js`, `src/models/Patient.js`, `src/models/Doctor.js`: the
  account schemas (relevant fields only).
- `src/utils.js` (concatenated after `src/lib/sessionCleanup.js`):
  `generateToken` — JWT signing, cookie, single-device enforcement, session
  creation.
- `src/controllers/adminController.js`: `register`, `verifyOTP` (controller),
  `forgotPassword`, `resetPassword`, and the helpers `getUserModel` /
  `getUserType`.

Modelling conventions:
- Time is `Nat` milliseconds since the epoch (`Date.now()`).
- Mongo collections are `List`s of records; `_id` is a `Nat` field
  (`sid` / `oid` / `aid`).  `updateMany` is a `map` guarded by the update
  filter, `deleteMany`/`deleteOne`-by-id is a `filter`, `findOne` without a
  sort is `List.find?`, and `findOne` with `sort({createdAt:-1})` picks the
  element with the largest `createdAt` among the matches.
- Fallible external effects (email delivery, a storage error inside a
  `try`/`catch`) are explicit `Bool` / enum parameters; the function returns
  what the JS code does on each branch.
- bcrypt hashing is abstracted by a tagging function `hashPassword`; no claim
  depends on the hash's internals.
- The audit logger (`logAuthEvent`) is append-only and never influences
  control flow (its failures are swallowed), so it is not part of the state.
- Mongoose runs schemas in strict mode (the default; no schema in the
  repository sets `strict`): assigning a path that the schema does not
  declare is silently dropped and never persisted.  The Doctor and Patient
  schemas declare `passwordResetCount` / `passwordResetUsedAt` /
  `passwordChangedAt` (Doctor.js, Patient.js:124-139); the Admin schema
  (Admin.js:31-72) declares none of them (its doc comment lists them, the
  schema body omits them).  The embedding therefore threads a per-schema
  flag through the password-mutation writes.
-/

namespace HealthConnect

/-! ## Session model — src/models/Session.js -/

/-- Embeds the `deviceInfo` subdocument of the session schema (Session.js). -/
structure DeviceInfo where
  browser : String := "Unknown"
  os : String := "Unknown"
  device : String := "Unknown"
deriving Repr, DecidableEq

/-- A session document (sessionSchema, Session.js).  `sid` stands for the
Mongo `_id`; timestamps are `Nat` milliseconds. -/
structure Session where
  sid : Nat
  userId : Nat
  userType : String
  token : String
  deviceInfo : DeviceInfo := {}
  ipAddress : String := ""
  lastActivity : Nat := 0
  expiresAt : Nat
  isActive : Bool := true
  revokedReason : Option String := none
  createdAt : Nat := 0
  updatedAt : Nat := 0
deriving Repr, DecidableEq

/-- Embeds `Session.findByToken` (Session.js:342-353): `findOne({ token,
isActive: true, expiresAt: { $gt: new Date() } })`. -/
def findByToken (now : Nat) (store : List Session) (token : String) : Option Session :=
  store.find? fun s => s.token == token && s.isActive && decide (now < s.expiresAt)

/-- The filter used by `getUserSessions` and by the `countDocuments` inside
`enforceSingleDevice`: active, unexpired sessions of one (userId, userType). -/
def liveFor (now : Nat) (store : List Session) (userId : Nat) (userType : String) :
    List Session :=
  store.filter fun s =>
    s.userId == userId && s.userType == userType && s.isActive && decide (now < s.expiresAt)

/-- Update filter of the `updateMany` inside `enforceSingleDevice`
(Session.js:440-445): `{ userId, userType, isActive: true }` — note: no
`expiresAt` condition, unlike the count. -/
def enforceFilter (userId : Nat) (userType : String) (s : Session) : Bool :=
  s.userId == userId && s.userType == userType && s.isActive

/-- Return value of `Session.enforceSingleDevice` together with the updated
store. -/
structure EnforceResult where
  revokedCount : Nat
  previousDeviceLoggedOut : Bool
  store : List Session
deriving Repr, DecidableEq

/-- Embeds `Session.enforceSingleDevice` (Session.js:429-462): counts active
unexpired sessions, then `updateMany` deactivates every active session of the
(userId, userType) pair, tagging the fixed revocation reason. -/
def enforceSingleDevice (now : Nat) (store : List Session) (userId : Nat)
    (userType : String) : EnforceResult :=
  let activeSessionsCount := (liveFor now store userId userType).length
  { revokedCount := (store.filter (enforceFilter userId userType)).length
    previousDeviceLoggedOut := activeSessionsCount > 0
    store := store.map fun s =>
      if enforceFilter userId userType s then
        { s with isActive := false
                 revokedReason := some "New device login - single device enforcement" }
      else s }

/-- Embeds `Session.createSession` (Session.js:302-311): insert the new document. -/
def createSession (store : List Session) (s : Session) : List Session :=
  store ++ [s]

/-- Embeds `Session.cleanupExpired` (Session.js:468-484): `updateMany({ expiresAt:
{ $lt: new Date() }, isActive: true }, { isActive: false })`. -/
def cleanupExpired (now : Nat) (store : List Session) : List Session :=
  store.map fun s =>
    if decide (s.expiresAt < now) && s.isActive then { s with isActive := false } else s

/-- One day in milliseconds. -/
def msPerDay : Nat := 24 * 60 * 60 * 1000

/-- Embeds `Session.deleteOldSessions` (Session.js:491-507): cutoff = now minus
`daysOld` days; `deleteMany({ isActive: false, updatedAt: { $lt: cutoff } })`. -/
def deleteOldSessions (now : Nat) (daysOld : Nat) (store : List Session) :
    List Session :=
  let cutoff := now - daysOld * msPerDay
  store.filter fun s => !(s.isActive == false && decide (s.updatedAt < cutoff))

/-! ## Token issuance — `generateToken` in src/utils.js -/

/-- Role-to-userType mapping inside `generateToken` (utils.js:280-282). -/
def roleToUserType (role : String) : String :=
  if role == "doctor" then "Doctor"
  else if role == "super_admin" || role == "user_management" then "Admin"
  else "Patient"

/-- Where, if anywhere, the `try` block around session bookkeeping inside
`generateToken` (utils.js:273-310) throws.  The `catch` swallows the error
("session tracking failure shouldn't break login"), so the token is returned
regardless. -/
inductive SessionStepFailure
  | noFailure
  /-- Case where `Session.enforceSingleDevice` throws: nothing was persisted. -/
  | atEnforce
  /-- Case where `Session.createSession` throws: enforcement already ran, the new
  session was not persisted. -/
  | atCreate
deriving Repr, DecidableEq

/-- Result of `generateToken`: the signed token, the cookie side effect, and
the session store afterwards. -/
structure GenerateTokenResult where
  token : String
  cookieSet : Bool
  store : List Session
deriving Repr, DecidableEq

/-- Seven days in milliseconds: both the JWT lifetime (`expiresIn: '7d'`),
the cookie `maxAge`, and the session `expiresAt` offset. -/
def sevenDaysMs : Nat := 7 * msPerDay

/-- Embeds `generateToken` (utils.js:252-317).  `token` stands for the value
`jwt.sign` produced; the cookie is always set right after signing.  Session
bookkeeping only happens when a request object was passed (`req ≠ null`) and
is wrapped in a `try`/`catch` that swallows failures. -/
def generateToken (now : Nat) (store : List Session) (userId : Nat) (role : String)
    (token : String) (sid : Nat) (device : DeviceInfo) (ip : String)
    (reqPresent : Bool) (failure : SessionStepFailure) : GenerateTokenResult :=
  if reqPresent then
    match failure with
    | .atEnforce => { token, cookieSet := true, store }
    | .atCreate =>
        { token, cookieSet := true
          store := (enforceSingleDevice now store userId (roleToUserType role)).store }
    | .noFailure =>
        let userType := roleToUserType role
        let enf := enforceSingleDevice now store userId userType
        let newSession : Session :=
          { sid, userId, userType, token, deviceInfo := device, ipAddress := ip
            lastActivity := now, expiresAt := now + sevenDaysMs, isActive := true
            revokedReason := none, createdAt := now, updatedAt := now }
        { token, cookieSet := true, store := createSession enf.store newSession }
  else { token, cookieSet := true, store }

/-! ## OTP model — src/models/OTP.js -/

/-- An OTP document (otpSchema, OTP.js:20-100).  `oid` stands for the Mongo
`_id`; `createdAt` comes from `timestamps: true`. -/
structure OTPDoc where
  oid : Nat
  email : String
  otp : String
  role : String
  purpose : String := "login"
  verified : Bool := false
  attempts : Nat := 0
  expiresAt : Nat
  createdAt : Nat := 0
deriving Repr, DecidableEq

/-- Embeds `otpSchema.methods.isExpired` (OTP.js:117-119): `Date.now() >
this.expiresAt.getTime()`. -/
def otpIsExpired (now : Nat) (d : OTPDoc) : Bool :=
  decide (d.expiresAt < now)

/-- Embeds `otpSchema.methods.canAttempt` (OTP.js:125-127): `this.attempts < 3`. -/
def canAttempt (d : OTPDoc) : Bool :=
  decide (d.attempts < 3)

/-- Query filter `{ email, purpose, verified: false }` used by `verifyOTP`
and by the `deleteMany` inside `createOTP`. -/
def unverifiedFor (email purpose : String) (d : OTPDoc) : Bool :=
  d.email == email && d.purpose == purpose && d.verified == false

/-- Embeds `deleteOne` by `_id` (the document's `deleteOne()` and
`OTP.deleteOne({ _id })`): Mongo `_id`s are unique, so deleting by id removes
exactly the documents carrying it. -/
def deleteOTP (store : List OTPDoc) (oid : Nat) : List OTPDoc :=
  store.filter fun d => d.oid != oid

/-- Embeds `document.save()` on an OTP document: persist the in-memory copy over
the stored one with the same `_id`. -/
def saveOTP (store : List OTPDoc) (d : OTPDoc) : List OTPDoc :=
  store.map fun o => if o.oid == d.oid then d else o

/-- Embeds `findOne({ email, purpose, verified: false }).sort({ createdAt: -1 })`
(OTP.js:192-196): the matching document with the largest `createdAt`. -/
def mostRecentUnverified (store : List OTPDoc) (email purpose : String) :
    Option OTPDoc :=
  (store.filter (unverifiedFor email purpose)).foldl
    (fun acc d =>
      match acc with
      | none => some d
      | some b => if b.createdAt < d.createdAt then some d else some b)
    none

/-- The `message` strings `OTP.verifyOTP` can return, as an enum. -/
inductive OTPMsg
  /-- Message "OTP not found or already verified. Please request a new OTP." -/
  | notFound
  /-- Message "OTP has expired. Please request a new OTP." -/
  | expired
  /-- Message "Maximum verification attempts exceeded. Please request a new OTP." -/
  | exhausted
  /-- Message "Invalid OTP. N attempt(s) remaining." -/
  | invalid (attemptsLeft : Nat)
  /-- Message "OTP verified successfully" -/
  | success
deriving Repr, DecidableEq

/-- Return value of `OTP.verifyOTP` together with the updated store. -/
structure VerifyOTPResult where
  success : Bool
  msg : OTPMsg
  store : List OTPDoc
deriving Repr, DecidableEq

/-- Embeds `OTP.verifyOTP` (OTP.js:190-241): select the most recent unverified
document for (email, purpose); fail if absent; delete and fail if expired;
delete and fail if attempts are exhausted (checked BEFORE comparing the
code); on mismatch increment `attempts`; on match mark `verified`. -/
def verifyOTP (now : Nat) (store : List OTPDoc) (email otp purpose : String) :
    VerifyOTPResult :=
  match mostRecentUnverified store email purpose with
  | none => { success := false, msg := .notFound, store }
  | some otpDoc =>
    if otpIsExpired now otpDoc then
      { success := false, msg := .expired, store := deleteOTP store otpDoc.oid }
    else if !canAttempt otpDoc then
      { success := false, msg := .exhausted, store := deleteOTP store otpDoc.oid }
    else if otpDoc.otp != otp then
      let bumped := { otpDoc with attempts := otpDoc.attempts + 1 }
      { success := false, msg := .invalid (3 - bumped.attempts)
        store := saveOTP store bumped }
    else
      { success := true, msg := .success
        store := saveOTP store { otpDoc with verified := true } }

/-- Ten minutes in milliseconds — the OTP expiry offset. -/
def tenMinutesMs : Nat := 10 * 60 * 1000

/-- Role values the otpSchema admits: `role: { enum: ['doctor', 'patient'],
required: true }` (OTP.js:50-54).  Mongoose validates the enum on
`OTP.create` / `document.save()`; creating a document whose role is any
other value throws a ValidationError. -/
def otpRoleValid (role : String) : Bool :=
  role == "doctor" || role == "patient"

/-- Embeds `OTP.createOTP` (OTP.js:160-181): delete unverified documents for the
(email, purpose) pair, then insert a fresh one.  `code` stands for the value
`generateOTP()` produced and `oid` for the new `_id`. -/
def createOTP (now : Nat) (store : List OTPDoc) (email role purpose : String)
    (code : String) (oid : Nat) : List OTPDoc :=
  (store.filter fun d => !unverifiedFor email purpose d) ++
    [{ oid, email, otp := code, role, purpose, verified := false, attempts := 0
       expiresAt := now + tenMinutesMs, createdAt := now }]

/-! ## Account model — src/models/Admin.js, Patient.js, Doctor.js -/

/-- An account document, covering the fields the auth flows touch.  `aid`
stands for the Mongo `_id`.  `password` holds the bcrypt hash.  The
password-reset tracking fields are `Option` because the Admin schema never
declares (and hence never stores) them. -/
structure Account where
  aid : Nat
  name : String := ""
  email : String
  password : String
  isEmailVerified : Bool := false
  emailVerifiedAt : Option Nat := none
  isActive : Bool := true
  lastLogin : Option Nat := none
  lastLogout : Option Nat := none
  passwordChangedAt : Option Nat := none
  passwordResetCount : Option Nat := none
  passwordResetUsedAt : Option Nat := none
deriving Repr, DecidableEq

/-- bcrypt hashing (the pre-save hooks in Admin.js:78-81, Patient.js,
Doctor.js), abstracted: only that a hash is stored matters to the claims. -/
def hashPassword (plain : String) : String :=
  String.append "bcrypt$" plain

/-- Whether the role's schema declares the password-reset tracking paths
(`passwordResetCount`, `passwordResetUsedAt`, `passwordChangedAt`,
`passwordResetToken`, `passwordResetExpires`).  Doctor.js and
Patient.js:124-139 declare them; the Admin schema body (Admin.js:31-72) does
not, although its doc comment lists them.  Under Mongoose strict mode (the
default, never overridden in this repository) assignments to undeclared
paths are silently dropped. -/
def schemaHasResetFields (role : String) : Bool :=
  role == "doctor" || role == "patient"

/-- The whole database state the auth controller operates on.  The audit log
is append-only and never read by these flows, so it is left out. -/
structure DB where
  doctors : List Account := []
  patients : List Account := []
  admins : List Account := []
  otps : List OTPDoc := []
  sessions : List Session := []
deriving Repr, DecidableEq

/-- Embeds `getUserModel` (adminController.js:815-819) followed by
`findOne({ email })`: doctor → Doctor, patient → Patient, anything else →
Admin. -/
def findUserByEmail (db : DB) (role email : String) : Option Account :=
  if role == "doctor" then db.doctors.find? fun a => a.email == email
  else if role == "patient" then db.patients.find? fun a => a.email == email
  else db.admins.find? fun a => a.email == email

/-- Embeds `document.save()` on an account: persist the in-memory copy over the
stored one with the same `_id`, in the collection `getUserModel` selected. -/
def saveUser (db : DB) (role : String) (a : Account) : DB :=
  let put := fun (l : List Account) => l.map fun x => if x.aid == a.aid then a else x
  if role == "doctor" then { db with doctors := put db.doctors }
  else if role == "patient" then { db with patients := put db.patients }
  else { db with admins := put db.admins }

/-! ## `forgotPassword` — adminController.js:1768-1885 -/

/-- The response classes `forgotPassword` can produce. -/
inductive ForgotOutcome
  /-- Status 400, "If an account exists with this email, a password reset OTP has
  been sent." (adminController.js:1795-1798). -/
  | genericNotFound
  /-- Status 403, lifetime reset limit reached (adminController.js:1819-1825). -/
  | resetLimitReached
  /-- Status 200, OTP created and mailed (adminController.js:1866-1870). -/
  | otpSent
  /-- Status 500: `OTP.create` threw a ValidationError because the otpSchema
  role enum excludes the requested role (e.g. 'admin'); the preceding
  deleteMany already ran, no OTP was persisted, and the error propagated to
  the catch (adminController.js:1877-1884). -/
  | otpCreateFailed
  /-- Status 500: the email send threw, the OTP was deleted again, the error
  propagated to the catch (adminController.js:1871-1884). -/
  | emailSendFailed
deriving Repr, DecidableEq

/-- HTTP status attached to each `forgotPassword` outcome in the source. -/
def forgotStatus : ForgotOutcome → Nat
  | .genericNotFound => 400
  | .resetLimitReached => 403
  | .otpSent => 200
  | .otpCreateFailed => 500
  | .emailSendFailed => 500

structure ForgotResult where
  outcome : ForgotOutcome
  db : DB
deriving Repr, DecidableEq

/-- Embeds `forgotPassword` (adminController.js:1768-1885).  Role-to-model mapping
as in the source (doctor → Doctor, patient → Patient, else Admin).  The
lifetime gate is `user.passwordResetCount && user.passwordResetCount >= 1`:
an absent field reads as `undefined` (falsy) and `0` is falsy, so the gate
fires exactly when the stored count is ≥ 1.  The `OTP.create` at 1838-1844
validates the otpSchema role enum ['doctor','patient']; any other role (the
route admits 'admin') makes it throw a ValidationError after the deleteMany
already ran, reaching the catch as a 500 with no OTP persisted.
`newCode`/`newOid` stand for the generated OTP and its `_id`; `emailFails`
is the email-service branch. -/
def forgotPassword (now : Nat) (db : DB) (email role : String)
    (newCode : String) (newOid : Nat) (emailFails : Bool) : ForgotResult :=
  match findUserByEmail db role email with
  | none => { outcome := .genericNotFound, db }
  | some user =>
    if 1 ≤ user.passwordResetCount.getD 0 then
      { outcome := .resetLimitReached, db }
    else
      -- deleteMany({ email, purpose: 'password-reset' })  (1832-1835)
      let otps1 := db.otps.filter fun d =>
        !(d.email == email && d.purpose == "password-reset")
      if !otpRoleValid role then
        { outcome := .otpCreateFailed, db := { db with otps := otps1 } }
      else
        let otpDoc : OTPDoc :=
          { oid := newOid, email, otp := newCode, role, purpose := "password-reset"
            verified := false, attempts := 0, expiresAt := now + tenMinutesMs
            createdAt := now }
        let otps2 := otps1 ++ [otpDoc]
        if emailFails then
          { outcome := .emailSendFailed
            db := { db with otps := deleteOTP otps2 newOid } }
        else
          { outcome := .otpSent, db := { db with otps := otps2 } }

/-! ## `resetPassword` — adminController.js:1907-2034 -/

/-- The response classes `resetPassword` can produce. -/
inductive ResetOutcome
  /-- Status 400, "Passwords do not match" (1914-1919). -/
  | passwordsDoNotMatch
  /-- Status 400, "Invalid, expired, or already used OTP." (1929-1944). -/
  | invalidOtp
  /-- Status 400, "OTP has expired." — the document is deleted (1946-1963). -/
  | otpExpired
  /-- Status 400, "User not found" — the document is deleted (1969-1976). -/
  | userNotFound
  /-- Status 500: `user.save()` threw after the OTP was already marked verified. -/
  | saveFailed
  /-- Status 200, password reset (2022-2025). -/
  | success
deriving Repr, DecidableEq

structure ResetResult where
  outcome : ResetOutcome
  db : DB
deriving Repr, DecidableEq

/-- Query filter of the `findOne` at adminController.js:1922-1927:
`{ email, otp, purpose: 'password-reset', verified: false }`. -/
def resetMatch (email code : String) (d : OTPDoc) : Bool :=
  d.email == email && d.otp == code && d.purpose == "password-reset" &&
    d.verified == false

/-- Embeds `resetPassword` (adminController.js:1907-2034).  The OTP document is
marked verified BEFORE the password mutation (1978-1979); `saveFails`
injects a storage failure at the `user.save()` that writes the new password
(the surrounding catch answers 500 and nothing later runs).  The
password-reset tracking writes go through the strict-mode check: the Admin
schema does not declare those paths, so for admin accounts the assignments
are dropped. -/
def resetPassword (now : Nat) (db : DB) (email code password confirmPassword role : String)
    (saveFails : Bool) : ResetResult :=
  if password != confirmPassword then
    { outcome := .passwordsDoNotMatch, db }
  else
    match db.otps.find? (resetMatch email code) with
    | none => { outcome := .invalidOtp, db }
    | some otpDoc =>
      if otpDoc.expiresAt < now then
        { outcome := .otpExpired, db := { db with otps := deleteOTP db.otps otpDoc.oid } }
      else
        match findUserByEmail db role email with
        | none =>
          { outcome := .userNotFound
            db := { db with otps := deleteOTP db.otps otpDoc.oid } }
        | some user =>
          -- Mark OTP as verified BEFORE changing password (1978-1979)
          let otps1 := saveOTP db.otps { otpDoc with verified := true }
          if saveFails then
            { outcome := .saveFailed, db := { db with otps := otps1 } }
          else
            let user1 :=
              if schemaHasResetFields role then
                { user with
                    password := hashPassword password
                    passwordChangedAt := some now
                    passwordResetCount := some (user.passwordResetCount.getD 0 + 1)
                    passwordResetUsedAt := some now }
              else
                -- Admin schema: only `password` is a declared path.
                { user with password := hashPassword password }
            let db1 := saveUser { db with otps := otps1 } role user1
            { outcome := .success, db := { db1 with otps := deleteOTP db1.otps otpDoc.oid } }

/-! ## `register` — adminController.js:896-1009 -/

/-- The response classes of `register` that the claims concern. -/
inductive RegisterOutcome
  /-- Status 400, "User already exists with this email" (926-929). -/
  | userAlreadyExists
  /-- Status 201, account created, OTP issued (964-1000 — both the email-ok and the
  email-failed variants still answer 201 with the account persisted). -/
  | registered
deriving Repr, DecidableEq

structure RegisterResult where
  outcome : RegisterOutcome
  db : DB
deriving Repr, DecidableEq

/-- Embeds `register` (adminController.js:896-1009).  The duplicate check queries
the Doctor and the Patient collections only (911-913); the account is then
created in the collection `role === 'doctor' ? Doctor : Patient` selects
(933), with the schema default `passwordResetCount: 0`, and a registration
OTP is issued via `OTP.createOTP` (950). -/
def register (now : Nat) (db : DB) (name email password role : String)
    (newAid : Nat) (otpCode : String) (newOid : Nat) : RegisterResult :=
  let existingDoctor := db.doctors.find? fun a => a.email == email
  let existingPatient := db.patients.find? fun a => a.email == email
  if existingDoctor.isSome || existingPatient.isSome then
    { outcome := .userAlreadyExists, db }
  else
    let user : Account :=
      { aid := newAid, name, email, password := hashPassword password
        isEmailVerified := false, passwordResetCount := some 0 }
    let db1 :=
      if role == "doctor" then { db with doctors := db.doctors ++ [user] }
      else { db with patients := db.patients ++ [user] }
    { outcome := .registered
      db := { db1 with otps := createOTP now db1.otps email role "registration" otpCode newOid } }

/-! ## `verifyOTP` controller — adminController.js:1243-1382 -/

/-- The response classes of the `verifyOTP` controller. -/
inductive VerifyCtrlOutcome
  /-- Status 400, the OTP engine refused (1267-1271); carries its message. -/
  | otpFailed (msg : OTPMsg)
  /-- Status 404, "User not found" (1278-1283). -/
  | userNotFound
  /-- Status 200, registration: email marked verified (1315-1319). -/
  | emailVerified
  /-- Status 200, login: session issued (1354-1366). -/
  | loginSuccess
  /-- Status 400, "Invalid OTP purpose" (1370-1373). -/
  | invalidPurpose
deriving Repr, DecidableEq

structure VerifyCtrlResult where
  outcome : VerifyCtrlOutcome
  db : DB
deriving Repr, DecidableEq

/-- User lookup inside the `verifyOTP` controller (1275-1276):
`role === 'doctor' ? Doctor : Patient`, then `findOne({ email })`. -/
def loginModelFind (db : DB) (role email : String) : Option Account :=
  if role == "doctor" then db.doctors.find? fun a => a.email == email
  else db.patients.find? fun a => a.email == email

/-- The collection name `role === 'doctor' ? Doctor : Patient` writes back
to, expressed for `saveUser`. -/
def loginModelRole (role : String) : String :=
  if role == "doctor" then "doctor" else "patient"

/-- Embeds `verifyOTP` controller (adminController.js:1243-1382): run the OTP
engine (its state changes persist even on failure), look the user up in the
doctor-or-patient collection, then branch on the purpose.  On login it calls
`generateToken` (1333), which enforces single-device and creates the
session; `newToken`/`newSid`/`device`/`ip`/`failure` parameterize that call
as in `generateToken`. -/
def verifyOTPController (now : Nat) (db : DB) (email code role purpose : String)
    (newToken : String) (newSid : Nat) (device : DeviceInfo) (ip : String)
    (failure : SessionStepFailure) : VerifyCtrlResult :=
  let verification := verifyOTP now db.otps email code purpose
  let db1 := { db with otps := verification.store }
  if verification.success = false then
    { outcome := .otpFailed verification.msg, db := db1 }
  else
    match loginModelFind db role email with
    | none => { outcome := .userNotFound, db := db1 }
    | some user =>
      if purpose == "registration" then
        let user1 := { user with isEmailVerified := true, emailVerifiedAt := some now }
        { outcome := .emailVerified, db := saveUser db1 (loginModelRole role) user1 }
      else if purpose == "login" then
        let user1 := { user with lastLogin := some now }
        let db2 := saveUser db1 (loginModelRole role) user1
        let g := generateToken now db2.sessions user.aid role newToken newSid device ip
          true failure
        { outcome := .loginSuccess, db := { db2 with sessions := g.store } }
      else
        { outcome := .invalidPurpose, db := db1 }

/-! ## Concrete sample inputs used by the witnesses and counterexamples -/

/-- Sample OTP record with three failed attempts (for the C3 witness). -/
def exhaustedOtp : OTPDoc :=
  { oid := 1, email := "a@b.c", otp := "123456", role := "patient", purpose := "login",
    verified := false, attempts := 3, expiresAt := 600000, createdAt := 0 }

/-- Sample live session (for the C10 witness). -/
def liveSession : Session :=
  { sid := 1, userId := 7, userType := "Patient", token := "tokA", expiresAt := 100,
    isActive := true, updatedAt := 0 }

/-- Sample unverified password-reset record (for the C8 witness). -/
def pendingResetOtp : OTPDoc :=
  { oid := 1, email := "a@b.c", otp := "123456", role := "patient",
    purpose := "password-reset", verified := false, attempts := 0, expiresAt := 600000,
    createdAt := 0 }

/-- Sample database holding only `pendingResetOtp` (for the C8 witness). -/
def pendingResetDb : DB := { otps := [pendingResetOtp] }

/-- Sample admin account (for the C2 failing input): created by seeding, so
only the fields the Admin schema declares are present —
`passwordResetCount` is absent. -/
def adminAcct : Account := { aid := 1, email := "a@h.com", password := "h" }

/-- Sample patient account sharing the admin's email (for C2).  Cross-role
duplicate emails are reachable: `register` never consults the Admin
collection (see C5), so a patient can register an email an admin already
holds. -/
def adminEmailPatient : Account := { aid := 3, email := "a@h.com", password := "h2" }

/-- Sample unverified password-reset record for the shared email (for C2).
Its role is 'patient' — the only kind the otpSchema enum admits — exactly
what `forgotPassword(email, role='patient')` persists for
`adminEmailPatient`.  `resetPassword` later matches it regardless of role:
its findOne filter (adminController.js:1922-1927) has no role condition. -/
def adminResetOtp : OTPDoc :=
  { oid := 1, email := "a@h.com", otp := "111111", role := "patient",
    purpose := "password-reset", verified := false, attempts := 0, expiresAt := 600000,
    createdAt := 0 }

/-- Sample database for the C2 failing input. -/
def adminDb : DB :=
  { patients := [adminEmailPatient], admins := [adminAcct], otps := [adminResetOtp] }

/-- Sample patient account (for the C6 witness). -/
def patientAcct : Account := { aid := 2, email := "a@b.c", password := "h" }

/-- Sample database with a patient and a pending reset record (C6 witness). -/
def patientResetDb : DB := { patients := [patientAcct], otps := [pendingResetOtp] }

/-- Sample login OTP whose email has no matching patient (C9 witness). -/
def orphanOtp : OTPDoc :=
  { oid := 1, email := "ghost@x.y", otp := "654321", role := "patient", purpose := "login",
    verified := false, attempts := 0, expiresAt := 600000, createdAt := 0 }

/-- Sample database holding only `orphanOtp` (C9 witness). -/
def orphanDb : DB := { otps := [orphanOtp] }

/-! ## Helper lemmas -/

/-- Deleting by id leaves no document carrying that id behind. -/
theorem not_mem_deleteOTP_oid (store : List OTPDoc) (oid : Nat) :
    ∀ x ∈ deleteOTP store oid, x.oid ≠ oid := by
  intro x hx
  have := (List.mem_filter.mp hx).2
  simpa using this

/-- After saving the verified copy of a document, every stored document with
its id is verified. -/
theorem saveOTP_verified_at_oid (store : List OTPDoc) (d : OTPDoc) :
    ∀ x ∈ saveOTP store { d with verified := true }, x.oid = d.oid → x.verified = true := by
  intro x hx hoid
  rcases List.mem_map.mp hx with ⟨o, ho, hfo⟩
  by_cases h : o.oid = d.oid
  · simp [h] at hfo
    subst hfo
    rfl
  · simp [h] at hfo
    subst hfo
    exact absurd hoid h

/-- When the filtered list is empty, there is no most recent unverified
document. -/
theorem mostRecentUnverified_eq_none (store : List OTPDoc) (email purpose : String)
    (h : store.filter (unverifiedFor email purpose) = []) :
    mostRecentUnverified store email purpose = none := by
  unfold mostRecentUnverified
  rw [h]
  rfl

/-- Marking the only matching unverified document verified empties the
filter for that (email, purpose) pair. -/
theorem filter_saveOTP_verified_eq_nil (store : List OTPDoc) (email purpose : String)
    (d : OTPDoc) (huniq : store.filter (unverifiedFor email purpose) = [d]) :
    (saveOTP store { d with verified := true }).filter (unverifiedFor email purpose) = [] := by
  rw [List.filter_eq_nil_iff]
  intro x hx
  rcases List.mem_map.mp hx with ⟨o, ho, hfo⟩
  by_cases h : o.oid = d.oid
  · simp [h] at hfo
    subst hfo
    simp [unverifiedFor]
  · simp [h] at hfo
    subst hfo
    intro hu
    have : o ∈ store.filter (unverifiedFor email purpose) := List.mem_filter.mpr ⟨ho, hu⟩
    rw [huniq] at this
    simp at this
    exact h (by rw [this])

/-- Saving a user never changes the OTP collection. -/
theorem saveUser_otps (db : DB) (role : String) (a : Account) :
    (saveUser db role a).otps = db.otps := by
  unfold saveUser
  by_cases h1 : (role == "doctor") = true <;> by_cases h2 : (role == "patient") = true <;>
    simp [h1, h2]

/-! ## C3 — a fourth verification attempt is refused and deletes the record -/

/-- C3: once an OTP record has accumulated 3 failed attempts, the next
`OTP.verifyOTP` call for it fails with the attempts-exhausted outcome and
deletes the record — even when the submitted code is the correct one,
because the exhaustion check (`canAttempt`) runs before the code
comparison. -/
theorem otp_fourth_attempt_exhausted (now : Nat) (store : List OTPDoc)
    (email code purpose : String) (d : OTPDoc)
    (hfind : mostRecentUnverified store email purpose = some d)
    (hnotexp : ¬ d.expiresAt < now)
    (hatt : d.attempts = 3)
    (_hcorrect : d.otp = code) :
    (verifyOTP now store email code purpose).success = false ∧
    (verifyOTP now store email code purpose).msg = .exhausted ∧
    (verifyOTP now store email code purpose).store = deleteOTP store d.oid := by
  unfold verifyOTP
  rw [hfind]
  simp [otpIsExpired, canAttempt, hnotexp, hatt]

/-- Witness for C3 at a concrete store: one record with three failed
attempts and the correct code submitted. -/
theorem otp_fourth_attempt_exhausted_witness :
    (mostRecentUnverified [exhaustedOtp] "a@b.c" "login" = some exhaustedOtp ∧
      ¬ exhaustedOtp.expiresAt < 5 ∧ exhaustedOtp.attempts = 3 ∧
      exhaustedOtp.otp = "123456") ∧
    ((verifyOTP 5 [exhaustedOtp] "a@b.c" "123456" "login").success = false ∧
     (verifyOTP 5 [exhaustedOtp] "a@b.c" "123456" "login").msg = .exhausted ∧
     (verifyOTP 5 [exhaustedOtp] "a@b.c" "123456" "login").store =
       deleteOTP [exhaustedOtp] exhaustedOtp.oid) :=
  ⟨by decide,
   otp_fourth_attempt_exhausted 5 [exhaustedOtp] "a@b.c" "123456" "login" exhaustedOtp
     (by decide) (by decide) (by decide) (by decide)⟩

/-! ## C10 — background sweeps never touch a live session -/

/-- C10: an active session whose expiry lies in the future is untouched by
both background sweeps: `cleanupExpired` keeps it (its update filter needs
`expiresAt < now`) and `deleteOldSessions` keeps it (its delete filter needs
`isActive = false`). -/
theorem sweeps_skip_live_sessions (now daysOld : Nat) (store : List Session) (s : Session)
    (hmem : s ∈ store) (hactive : s.isActive = true) (hlive : now < s.expiresAt) :
    s ∈ cleanupExpired now store ∧ s ∈ deleteOldSessions now daysOld store := by
  constructor
  · unfold cleanupExpired
    refine List.mem_map.mpr ⟨s, hmem, ?_⟩
    have h : ¬ s.expiresAt < now := by omega
    simp [h]
  · unfold deleteOldSessions
    refine List.mem_filter.mpr ⟨hmem, ?_⟩
    simp [hactive]

/-- Witness for C10: a live session in a one-element store survives both
sweeps unchanged. -/
theorem sweeps_skip_live_sessions_witness :
    (liveSession ∈ [liveSession] ∧ liveSession.isActive = true ∧
      10 < liveSession.expiresAt) ∧
    (liveSession ∈ cleanupExpired 10 [liveSession] ∧
     liveSession ∈ deleteOldSessions 10 30 [liveSession]) :=
  ⟨by decide,
   sweeps_skip_live_sessions 10 30 [liveSession] liveSession
     (by decide) (by decide) (by decide)⟩

/-! ## C8 — a wrong reset code changes nothing -/

/-- C8: a `resetPassword` call whose submitted code matches no unverified
password-reset record for that email fails with status 400 (invalid OTP) and
leaves the whole database state unchanged — in particular no OTP record's
`attempts` counter is incremented, so the 3-attempt cap never applies to
this endpoint and wrong guesses can be repeated while the record lives. -/
theorem reset_password_wrong_code_frame (now : Nat) (db : DB)
    (email code pw role : String) (saveFails : Bool)
    (hfind : db.otps.find? (resetMatch email code) = none) :
    (resetPassword now db email code pw pw role saveFails).outcome = .invalidOtp ∧
    (resetPassword now db email code pw pw role saveFails).db = db := by
  unfold resetPassword
  simp [hfind]

/-- Witness for C8: a store holding one unverified reset record; a guess
that differs from its code returns invalid-OTP and leaves the state (and so
the attempts counter) untouched. -/
theorem reset_password_wrong_code_frame_witness :
    (pendingResetDb.otps.find? (resetMatch "a@b.c" "999999") = none) ∧
    ((resetPassword 5 pendingResetDb "a@b.c" "999999" "NewPass1" "NewPass1"
        "patient" false).outcome = .invalidOtp ∧
     (resetPassword 5 pendingResetDb "a@b.c" "999999" "NewPass1" "NewPass1"
        "patient" false).db = pendingResetDb) :=
  ⟨by decide,
   reset_password_wrong_code_frame 5 pendingResetDb "a@b.c" "999999" "NewPass1"
     "patient" false (by decide)⟩

/-! ## C4 — forgot-password response when the account does not exist -/

/-- Counterexample to C4 as stated: when the account does not exist the
endpoint answers HTTP 400 (with the generic anti-enumeration message), not
the 200 it gives when the account exists — so the two responses are not the
same and the status code itself distinguishes the branches. -/
theorem forgot_password_not_found_is_400 :
    forgotStatus (forgotPassword 0 {} "x@y.z" "patient" "123456" 1 false).outcome = 400 ∧
    forgotStatus (forgotPassword 0
        { patients := [{ aid := 1, email := "x@y.z", password := "h" }] }
        "x@y.z" "patient" "123456" 1 false).outcome = 200 := by
  decide

/-- C4 (amended): when the account does not exist, `forgotPassword` answers
status 400 — not the 200 the claim states — with the fixed generic
anti-enumeration message ("If an account exists with this email, a password
reset OTP has been sent.") and changes nothing; and the 403 ResetLimitReached
outcome occurs exactly when the account exists with a stored
`passwordResetCount` of at least 1. -/
theorem forgot_password_response_classes (now : Nat) (db : DB)
    (email role newCode : String) (newOid : Nat) (emailFails : Bool) :
    (findUserByEmail db role email = none →
      (forgotPassword now db email role newCode newOid emailFails).outcome =
        .genericNotFound ∧
      forgotStatus (forgotPassword now db email role newCode newOid emailFails).outcome =
        400 ∧
      (forgotPassword now db email role newCode newOid emailFails).db = db) ∧
    ((forgotPassword now db email role newCode newOid emailFails).outcome =
        .resetLimitReached ↔
      ∃ u, findUserByEmail db role email = some u ∧ 1 ≤ u.passwordResetCount.getD 0) := by
  unfold forgotPassword
  cases hfind : findUserByEmail db role email with
  | none => simp [forgotStatus]
  | some u =>
    by_cases hgate : 1 ≤ u.passwordResetCount.getD 0
    · simp [hgate]
    · by_cases hrv : otpRoleValid role = true <;> cases emailFails <;>
        simp [hgate, hrv]

/-- Witness for C4 (amended): applies the classification at a concrete empty
database, discharging the not-found hypothesis. -/
theorem forgot_password_response_classes_witness :
    (findUserByEmail {} "patient" "x@y.z" = none →
      (forgotPassword 0 {} "x@y.z" "patient" "123456" 1 false).outcome =
        .genericNotFound ∧
      forgotStatus (forgotPassword 0 {} "x@y.z" "patient" "123456" 1 false).outcome =
        400 ∧
      (forgotPassword 0 {} "x@y.z" "patient" "123456" 1 false).db = {}) ∧
    ((forgotPassword 0 {} "x@y.z" "patient" "123456" 1 false).outcome =
        .resetLimitReached ↔
      ∃ u, findUserByEmail {} "patient" "x@y.z" = some u ∧
        1 ≤ u.passwordResetCount.getD 0) :=
  forgot_password_response_classes 0 {} "x@y.z" "patient" "123456" 1 false

/-! ## C5 — registration duplicate check does not consult the Admin collection -/

/-- Counterexample to C5 as stated: an email present only in the Admin
collection does not block registration — `register` checks the Doctor and
Patient collections only (adminController.js:911-913), so the request
succeeds and a new Patient account with that email is created. -/
theorem register_ignores_admin_collection :
    (register 0 { admins := [{ aid := 1, email := "a@b.c", password := "h" }] }
        "Bob" "a@b.c" "pw" "patient" 2 "123456" 3).outcome = .registered ∧
    ((register 0 { admins := [{ aid := 1, email := "a@b.c", password := "h" }] }
        "Bob" "a@b.c" "pw" "patient" 2 "123456" 3).db.patients.find?
      fun a => a.email == "a@b.c").isSome := by
  decide

/-- C5 (amended): registration fails with the duplicate-email response
exactly when the email already exists in the Doctor or the Patient
collection (the Admin collection is not consulted), and on that failure no
account is created — the database is unchanged. -/
theorem register_duplicate_doctor_patient_only (now : Nat) (db : DB)
    (name email password role : String) (newAid : Nat) (otpCode : String) (newOid : Nat) :
    ((register now db name email password role newAid otpCode newOid).outcome =
        .userAlreadyExists ↔
      ((db.doctors.find? fun a => a.email == email).isSome ||
        (db.patients.find? fun a => a.email == email).isSome) = true) ∧
    (((db.doctors.find? fun a => a.email == email).isSome ||
        (db.patients.find? fun a => a.email == email).isSome) = true →
      (register now db name email password role newAid otpCode newOid).db = db) := by
  unfold register
  by_cases hdup : ((db.doctors.find? fun a => a.email == email).isSome ||
      (db.patients.find? fun a => a.email == email).isSome) = true
  · rw [if_pos hdup]
    exact ⟨⟨fun _ => hdup, fun _ => rfl⟩, fun _ => rfl⟩
  · rw [if_neg hdup]
    exact ⟨⟨fun h => RegisterOutcome.noConfusion h, fun h => absurd h hdup⟩,
      fun h => absurd h hdup⟩

/-- Witness for C5 (amended): applies the characterization at a database
whose only account with the email is a doctor. -/
theorem register_duplicate_doctor_patient_only_witness :
    ((register 0 { doctors := [{ aid := 1, email := "a@b.c", password := "h" }] }
        "Bob" "a@b.c" "pw" "patient" 2 "123456" 3).outcome = .userAlreadyExists ↔
      ((({ doctors := [{ aid := 1, email := "a@b.c", password := "h" }] } : DB).doctors.find?
          fun a => a.email == "a@b.c").isSome ||
        (({ doctors := [{ aid := 1, email := "a@b.c", password := "h" }] } : DB).patients.find?
          fun a => a.email == "a@b.c").isSome) = true) ∧
    (((({ doctors := [{ aid := 1, email := "a@b.c", password := "h" }] } : DB).doctors.find?
          fun a => a.email == "a@b.c").isSome ||
        (({ doctors := [{ aid := 1, email := "a@b.c", password := "h" }] } : DB).patients.find?
          fun a => a.email == "a@b.c").isSome) = true →
      (register 0 { doctors := [{ aid := 1, email := "a@b.c", password := "h" }] }
        "Bob" "a@b.c" "pw" "patient" 2 "123456" 3).db =
        { doctors := [{ aid := 1, email := "a@b.c", password := "h" }] }) :=
  register_duplicate_doctor_patient_only 0
    { doctors := [{ aid := 1, email := "a@b.c", password := "h" }] }
    "Bob" "a@b.c" "pw" "patient" 2 "123456" 3

/-! ## C7 — token issuance is not atomic with session creation -/

/-- Counterexample to C7 as stated: `generateToken` succeeds — it returns
the token and sets the cookie — while the session bookkeeping inside its
swallowed `try`/`catch` failed, so no Session record bound to the token was
persisted (`findByToken` on the fresh token finds nothing). -/
theorem token_issued_without_session :
    (generateToken 10 [] 7 "patient" "tokB" 2 {} "1.2.3.4" true .atEnforce).token =
      "tokB" ∧
    (generateToken 10 [] 7 "patient" "tokB" 2 {} "1.2.3.4" true .atEnforce).cookieSet =
      true ∧
    findByToken 10
      (generateToken 10 [] 7 "patient" "tokB" 2 {} "1.2.3.4" true .atEnforce).store
      "tokB" = none := by
  decide

/-- C7 (amended): token issuance is best-effort-coupled to session
creation, not atomic with it: `generateToken` always returns the token and
sets the cookie; a Session bound to that exact token value is persisted when
the session step runs without failure, while a swallowed session-step
failure (or a missing request object) leaves the session store without it. -/
theorem generate_token_best_effort (now : Nat) (store : List Session) (uid : Nat)
    (role tok : String) (sid : Nat) (dev : DeviceInfo) (ip : String)
    (reqPresent : Bool) (failure : SessionStepFailure) :
    (generateToken now store uid role tok sid dev ip reqPresent failure).token = tok ∧
    (generateToken now store uid role tok sid dev ip reqPresent failure).cookieSet =
      true ∧
    (reqPresent = true → failure = .noFailure →
      ∃ s ∈ (generateToken now store uid role tok sid dev ip reqPresent failure).store,
        s.token = tok ∧ s.isActive = true ∧ s.userId = uid) ∧
    (reqPresent = false ∨ failure = .atEnforce →
      (generateToken now store uid role tok sid dev ip reqPresent failure).store =
        store) := by
  cases reqPresent <;> cases failure <;>
    simp [generateToken, createSession]
  exact ⟨_, Or.inr rfl, rfl, rfl, rfl⟩

/-- Witness for C7 (amended): applied on the success path, exhibiting the
persisted session bound to the token. -/
theorem generate_token_best_effort_witness :
    (generateToken 10 [] 7 "patient" "tokB" 2 {} "1.2.3.4" true .noFailure).token =
      "tokB" ∧
    (generateToken 10 [] 7 "patient" "tokB" 2 {} "1.2.3.4" true .noFailure).cookieSet =
      true ∧
    (true = true → SessionStepFailure.noFailure = .noFailure →
      ∃ s ∈ (generateToken 10 [] 7 "patient" "tokB" 2 {} "1.2.3.4" true .noFailure).store,
        s.token = "tokB" ∧ s.isActive = true ∧ s.userId = 7) ∧
    (true = false ∨ SessionStepFailure.noFailure = .atEnforce →
      (generateToken 10 [] 7 "patient" "tokB" 2 {} "1.2.3.4" true .noFailure).store =
        []) :=
  generate_token_best_effort 10 [] 7 "patient" "tokB" 2 {} "1.2.3.4" true .noFailure

/-! ## C2 — the lifetime reset limit silently fails for admin accounts -/

/-- C2 fails on the code for the admin role, by two slips the claim's intent
contradicts: the Admin schema never declares `passwordResetCount`
(Admin.js:31-72 — its own doc comment, line 22, lists the field, the schema
body omits it), so under Mongoose strict mode the increment performed by
`resetPassword` (adminController.js:1986) is silently dropped; and the
otpSchema role enum excludes 'admin' (OTP.js:50-54), so an admin
`forgotPassword` dies at `OTP.create` with a 500.  Evaluated here on a
schema-valid, reachable state (admin and patient share the email; the
pending reset OTP carries role 'patient' as `forgotPassword` would persist
it): `resetPassword` with role 'admin' completes successfully — its OTP
lookup has no role filter — yet the stored admin account still has no
`passwordResetCount`, and a much later admin `forgotPassword` call passes
the lifetime gate and answers 500 from the enum ValidationError with no OTP
persisted, instead of the 403 ResetLimitReached the claim requires. -/
theorem admin_reset_limit_not_enforced :
    (resetPassword 5 adminDb "a@h.com" "111111" "NewPass1" "NewPass1" "admin"
        false).outcome = .success ∧
    ((resetPassword 5 adminDb "a@h.com" "111111" "NewPass1" "NewPass1" "admin"
        false).db.admins.map fun a => a.passwordResetCount) = [none] ∧
    (forgotPassword 999999999
      (resetPassword 5 adminDb "a@h.com" "111111" "NewPass1" "NewPass1" "admin"
        false).db "a@h.com" "admin" "222222" 9 false).outcome = .otpCreateFailed ∧
    forgotStatus (forgotPassword 999999999
      (resetPassword 5 adminDb "a@h.com" "111111" "NewPass1" "NewPass1" "admin"
        false).db "a@h.com" "admin" "222222" 9 false).outcome = 500 ∧
    ((forgotPassword 999999999
      (resetPassword 5 adminDb "a@h.com" "111111" "NewPass1" "NewPass1" "admin"
        false).db "a@h.com" "admin" "222222" 9 false).db.otps.filter fun d =>
          d.email == "a@h.com" && d.purpose == "password-reset") = [] := by
  decide

/-! ## C6 — the OTP is marked verified strictly before the password write -/

/-- C6: in every `resetPassword` execution that reaches the password
mutation, the matching OTP record is marked verified strictly before the new
password is written: whether or not the `user.save()` that writes the
password then fails, every stored record carrying the OTP's id is already
verified (on success it is subsequently deleted), and when the save fails
the account collections are still untouched — so a mid-failure can never
leave an unverified, re-usable OTP record behind. -/
theorem otp_verified_before_password_write (now : Nat) (db : DB)
    (email code pw role : String) (d : OTPDoc) (u : Account)
    (hfind : db.otps.find? (resetMatch email code) = some d)
    (hnotexp : ¬ d.expiresAt < now)
    (huser : findUserByEmail db role email = some u) :
    ∀ saveFails : Bool,
      (∀ x ∈ (resetPassword now db email code pw pw role saveFails).db.otps,
          x.oid = d.oid → x.verified = true) ∧
      (saveFails = true →
        (resetPassword now db email code pw pw role saveFails).outcome = .saveFailed ∧
        (resetPassword now db email code pw pw role saveFails).db.doctors = db.doctors ∧
        (resetPassword now db email code pw pw role saveFails).db.patients = db.patients ∧
        (resetPassword now db email code pw pw role saveFails).db.admins = db.admins) := by
  intro saveFails
  unfold resetPassword
  rw [hfind]
  simp only [bne_self_eq_false, Bool.false_eq_true, if_false, if_neg hnotexp, huser]
  cases saveFails with
  | true =>
    refine ⟨saveOTP_verified_at_oid db.otps d, fun _ => ⟨rfl, rfl, rfl, rfl⟩⟩
  | false =>
    refine ⟨?_, fun h => absurd h (by simp)⟩
    rw [saveUser_otps]
    intro x hx hoid
    exact absurd hoid (not_mem_deleteOTP_oid _ _ x hx)

/-- Witness for C6: a concrete patient with a pending reset record, run at
both values of the save-failure flag. -/
theorem otp_verified_before_password_write_witness :
    (patientResetDb.otps.find? (resetMatch "a@b.c" "123456") = some pendingResetOtp ∧
      ¬ pendingResetOtp.expiresAt < 5 ∧
      findUserByEmail patientResetDb "patient" "a@b.c" = some patientAcct) ∧
    (∀ saveFails : Bool,
      (∀ x ∈ (resetPassword 5 patientResetDb "a@b.c" "123456" "NewPass1" "NewPass1"
          "patient" saveFails).db.otps,
        x.oid = pendingResetOtp.oid → x.verified = true) ∧
      (saveFails = true →
        (resetPassword 5 patientResetDb "a@b.c" "123456" "NewPass1" "NewPass1"
          "patient" saveFails).outcome = .saveFailed ∧
        (resetPassword 5 patientResetDb "a@b.c" "123456" "NewPass1" "NewPass1"
          "patient" saveFails).db.doctors = patientResetDb.doctors ∧
        (resetPassword 5 patientResetDb "a@b.c" "123456" "NewPass1" "NewPass1"
          "patient" saveFails).db.patients = patientResetDb.patients ∧
        (resetPassword 5 patientResetDb "a@b.c" "123456" "NewPass1" "NewPass1"
          "patient" saveFails).db.admins = patientResetDb.admins)) :=
  ⟨⟨by decide, by decide, by decide⟩,
   otp_verified_before_password_write 5 patientResetDb "a@b.c" "123456" "NewPass1"
     "patient" pendingResetOtp patientAcct (by decide) (by decide) (by decide)⟩

/-! ## C9 — verify-otp consumes the OTP before the user lookup -/

/-- C9: a verify-otp request with the correct code for the sole unverified
(email, purpose) record, but with no matching user in the requested role's
collection, answers 404 User-not-found while the OTP record has already been
marked verified — so replaying the identical request (at any later time,
with any parameters for the session step) fails with the not-found OTP
outcome: the OTP is consumed before the user lookup. -/
theorem verify_otp_consumed_before_user_lookup (now : Nat) (db : DB)
    (email code role purpose : String) (d : OTPDoc)
    (newToken : String) (newSid : Nat) (device : DeviceInfo) (ip : String)
    (failure : SessionStepFailure)
    (hmr : mostRecentUnverified db.otps email purpose = some d)
    (huniq : db.otps.filter (unverifiedFor email purpose) = [d])
    (hnotexp : ¬ d.expiresAt < now)
    (hatt : d.attempts < 3)
    (hcode : d.otp = code)
    (huser : loginModelFind db role email = none) :
    (verifyOTPController now db email code role purpose newToken newSid device ip
        failure).outcome = .userNotFound ∧
    (∀ x ∈ (verifyOTPController now db email code role purpose newToken newSid device
        ip failure).db.otps, x.oid = d.oid → x.verified = true) ∧
    (∀ (now₂ : Nat) (tk : String) (sid₂ : Nat) (dev₂ : DeviceInfo) (ip₂ : String)
        (f₂ : SessionStepFailure),
      (verifyOTPController now₂
        (verifyOTPController now db email code role purpose newToken newSid device ip
          failure).db email code role purpose tk sid₂ dev₂ ip₂ f₂).outcome =
        .otpFailed .notFound) := by
  have hv : verifyOTP now db.otps email code purpose =
      { success := true, msg := .success
        store := saveOTP db.otps { d with verified := true } } := by
    unfold verifyOTP
    rw [hmr]
    simp [otpIsExpired, canAttempt, hnotexp, hatt, hcode]
  have hctrl : verifyOTPController now db email code role purpose newToken newSid
      device ip failure =
      { outcome := .userNotFound
        db := { db with otps := saveOTP db.otps { d with verified := true } } } := by
    unfold verifyOTPController
    rw [hv, huser]
    rfl
  have hnil : (saveOTP db.otps { d with verified := true }).filter
      (unverifiedFor email purpose) = [] :=
    filter_saveOTP_verified_eq_nil db.otps email purpose d huniq
  have hmr2 : mostRecentUnverified (saveOTP db.otps { d with verified := true })
      email purpose = none :=
    mostRecentUnverified_eq_none _ _ _ hnil
  refine ⟨by rw [hctrl], ?_, ?_⟩
  · rw [hctrl]
    exact saveOTP_verified_at_oid db.otps d
  · intro now₂ tk sid₂ dev₂ ip₂ f₂
    rw [hctrl]
    unfold verifyOTPController
    have hv2 : verifyOTP now₂ (saveOTP db.otps { d with verified := true })
        email code purpose =
        { success := false, msg := .notFound
          store := saveOTP db.otps { d with verified := true } } := by
      unfold verifyOTP
      rw [hmr2]
    rw [hv2]
    rfl

/-- Witness for C9: a login OTP whose email matches no patient account. -/
theorem verify_otp_consumed_before_user_lookup_witness :
    (mostRecentUnverified orphanDb.otps "ghost@x.y" "login" = some orphanOtp ∧
      orphanDb.otps.filter (unverifiedFor "ghost@x.y" "login") = [orphanOtp] ∧
      ¬ orphanOtp.expiresAt < 5 ∧ orphanOtp.attempts < 3 ∧ orphanOtp.otp = "654321" ∧
      loginModelFind orphanDb "patient" "ghost@x.y" = none) ∧
    ((verifyOTPController 5 orphanDb "ghost@x.y" "654321" "patient" "login" "tokC" 4
        {} "1.2.3.4" .noFailure).outcome = .userNotFound ∧
     (∀ x ∈ (verifyOTPController 5 orphanDb "ghost@x.y" "654321" "patient" "login"
        "tokC" 4 {} "1.2.3.4" .noFailure).db.otps,
       x.oid = orphanOtp.oid → x.verified = true) ∧
     (∀ (now₂ : Nat) (tk : String) (sid₂ : Nat) (dev₂ : DeviceInfo) (ip₂ : String)
         (f₂ : SessionStepFailure),
       (verifyOTPController now₂
         (verifyOTPController 5 orphanDb "ghost@x.y" "654321" "patient" "login" "tokC"
           4 {} "1.2.3.4" .noFailure).db "ghost@x.y" "654321" "patient" "login" tk sid₂
           dev₂ ip₂ f₂).outcome = .otpFailed .notFound)) :=
  ⟨⟨by decide, by decide, by decide, by decide, by decide, by decide⟩,
   verify_otp_consumed_before_user_lookup 5 orphanDb "ghost@x.y" "654321" "patient"
     "login" orphanOtp "tokC" 4 {} "1.2.3.4" .noFailure (by decide) (by decide)
     (by decide) (by decide) (by decide) (by decide)⟩

/-! ## C1 — a second login leaves exactly one active session -/

/-- Enforcement leaves no live session behind for the (userId, userType)
pair: the update filter covers every active session of the pair. -/
theorem enforce_filter_kills_live (now : Nat) (store : List Session) (uid : Nat)
    (ut : String) :
    List.filter (fun s => s.userId == uid && s.userType == ut && s.isActive &&
      decide (now < s.expiresAt)) (enforceSingleDevice now store uid ut).store = [] := by
  have hst : (enforceSingleDevice now store uid ut).store = store.map fun s =>
      if enforceFilter uid ut s then
        { s with isActive := false, revokedReason := some "New device login - single device enforcement" }
      else s := rfl
  rw [hst, List.filter_eq_nil_iff]
  intro x hx
  rcases List.mem_map.mp hx with ⟨s0, _hs0, rfl⟩
  by_cases hef : enforceFilter uid ut s0 = true
  · rw [if_pos hef]
    simp
  · rw [if_neg hef]
    intro hcontra
    simp only [Bool.and_eq_true, beq_iff_eq, decide_eq_true_eq] at hcontra
    exact hef (by simp [enforceFilter, hcontra.1.1.1, hcontra.1.1.2, hcontra.1.2])

/-- C1: when a user with one active session completes a second login (the
token-issuance path with the session step succeeding), exactly one active
unexpired session remains for that (userId, userType) — the new one, bound
to the new token — and the first session's token no longer authenticates:
`findByToken` on it returns none, because `generateToken` runs
`enforceSingleDevice` (revoking all prior active sessions) before creating
the new session.  Tokens are pairwise distinct (the schema declares a unique
index on `token`), and the fresh token differs from the old one. -/
theorem second_login_single_active_session (now : Nat) (store : List Session)
    (uid : Nat) (role : String) (old : Session) (t2 : String) (sid2 : Nat)
    (dev : DeviceInfo) (ip : String)
    (hnodup : (store.map Session.token).Nodup)
    (hlive : liveFor now store uid (roleToUserType role) = [old])
    (ht2 : t2 ≠ old.token) :
    ((liveFor now (generateToken now store uid role t2 sid2 dev ip true
        .noFailure).store uid (roleToUserType role)).map Session.token = [t2]) ∧
    findByToken now (generateToken now store uid role t2 sid2 dev ip true
        .noFailure).store old.token = none := by
  have holdmem : old ∈ store ∧ (old.userId == uid && old.userType == roleToUserType role
      && old.isActive && decide (now < old.expiresAt)) = true := by
    have h : old ∈ liveFor now store uid (roleToUserType role) := by
      rw [hlive]; exact List.mem_singleton_self _
    exact List.mem_filter.mp h
  obtain ⟨holdin, holdpred⟩ := holdmem
  simp only [Bool.and_eq_true, beq_iff_eq, decide_eq_true_eq] at holdpred
  obtain ⟨⟨⟨holduid, holdut⟩, holdact⟩, _holdexp⟩ := holdpred
  have holdef : enforceFilter uid (roleToUserType role) old = true := by
    simp [enforceFilter, holduid, holdut, holdact]
  have hstore : (generateToken now store uid role t2 sid2 dev ip true .noFailure).store =
      (enforceSingleDevice now store uid (roleToUserType role)).store ++
        [{ sid := sid2, userId := uid, userType := roleToUserType role, token := t2,
           deviceInfo := dev, ipAddress := ip, lastActivity := now,
           expiresAt := now + sevenDaysMs, isActive := true, revokedReason := none,
           createdAt := now, updatedAt := now }] := rfl
  constructor
  · rw [hstore]
    unfold liveFor
    rw [List.filter_append, enforce_filter_kills_live now store uid (roleToUserType role)]
    have hexp : now < now + sevenDaysMs := by unfold sevenDaysMs msPerDay; omega
    simp [hexp]
  · rw [hstore]
    unfold findByToken
    rw [List.find?_eq_none]
    intro x hx
    rcases List.mem_append.mp hx with hx | hx
    · have hst : (enforceSingleDevice now store uid (roleToUserType role)).store =
          store.map fun s =>
            if enforceFilter uid (roleToUserType role) s then
              { s with isActive := false, revokedReason := some "New device login - single device enforcement" }
            else s := rfl
      rw [hst] at hx
      rcases List.mem_map.mp hx with ⟨s0, hs0, rfl⟩
      by_cases hef : enforceFilter uid (roleToUserType role) s0 = true
      · rw [if_pos hef]
        simp
      · rw [if_neg hef]
        intro hcontra
        simp only [Bool.and_eq_true, beq_iff_eq, decide_eq_true_eq] at hcontra
        have hs0old : s0 = old :=
          List.inj_on_of_nodup_map hnodup hs0 holdin hcontra.1.1
        rw [hs0old] at hef
        exact hef holdef
    · simp only [List.mem_singleton] at hx
      subst hx
      simp [ht2]

/-- Witness for C1: a single live session, then a second login with a fresh
token. -/
theorem second_login_single_active_session_witness :
    (([liveSession].map Session.token).Nodup ∧
      liveFor 10 [liveSession] 7 (roleToUserType "patient") = [liveSession] ∧
      "tokB" ≠ liveSession.token) ∧
    (((liveFor 10 (generateToken 10 [liveSession] 7 "patient" "tokB" 2 {} "1.2.3.4"
        true .noFailure).store 7 (roleToUserType "patient")).map Session.token =
      ["tokB"]) ∧
     findByToken 10 (generateToken 10 [liveSession] 7 "patient" "tokB" 2 {} "1.2.3.4"
        true .noFailure).store liveSession.token = none) :=
  ⟨⟨by decide, by decide, by decide⟩,
   second_login_single_active_session 10 [liveSession] 7 "patient" liveSession "tokB"
     2 {} "1.2.3.4" (by decide) (by decide) (by decide)⟩

end HealthConnect
